import Mathlib

/-!
Verification of the Flux focus-session daemon core against its
natural-language specification.

The definitions below are a shallow embedding of the Rust sources:

* `crates/flux-core/src/domain/focus_mode.rs`  (`FocusMode`)
* `crates/flux-core/src/domain/session.rs`     (`Session`)
* `crates/flux-daemon/src/actors/timer.rs`     (`TimerActor`)
* `crates/flux-daemon/src/actors/app_tracker.rs` (`AppTrackerActor`)
* `crates/flux-daemon/src/server.rs`           (`handle_request`)
* `crates/flux-protocol/src/lib.rs`            (`Request` / `Response` wire codec)

Time instants are modelled as integer nanoseconds (chrono `DateTime<Utc>`
has nanosecond precision) and `std::time::Duration` values as natural
nanoseconds.  Effectful calls (repository persistence, notifier sends,
tray pushes, actor-to-actor messages) are modelled as events appended to
an explicit event list, in the order the source performs them.
-/

set_option autoImplicit false

namespace Flux

/-- Nanoseconds per second, the conversion used by `Duration::as_secs` and
`chrono::TimeDelta::num_seconds`. -/
def nsPerSec : Int := 1000000000

/-! ### FocusMode (crates/flux-core/src/domain/focus_mode.rs) -/

/-- Embeds `enum FocusMode { AiAssisted, Review, Architecture, Veille, Custom(String) }`,
with the variants in source declaration order (the order is wire-relevant:
bincode encodes the variant index). -/
inductive FocusMode where
  | AiAssisted : FocusMode
  | Review : FocusMode
  | Architecture : FocusMode
  | Veille : FocusMode
  | Custom : String → FocusMode
deriving DecidableEq, Repr

/-- Embeds `FocusMode::as_str`. -/
def FocusMode.as_str : FocusMode → String
  | .AiAssisted => "ai-assisted"
  | .Review => "review"
  | .Architecture => "architecture"
  | .Veille => "veille"
  | .Custom name => name

/-- Embeds `FocusMode::from_stored` (the legacy stored name `"prompting"`
maps to `AiAssisted`). -/
def FocusMode.from_stored (value : String) : FocusMode :=
  if value = "prompting" ∨ value = "ai-assisted" then .AiAssisted
  else if value = "review" then .Review
  else if value = "architecture" then .Architecture
  else if value = "veille" then .Veille
  else .Custom value

/-! ### Session (crates/flux-core/src/domain/session.rs) -/

/-- Embeds `pub struct Session`; instants are `Int` nanoseconds since the
epoch, `id` is the optional `i64` row id. -/
structure Session where
  id : Option Int
  mode : FocusMode
  started_at : Int
  ended_at : Option Int
  duration_seconds : Option Int
  check_in_count : Int
deriving DecidableEq, Repr

/-- Embeds `chrono::TimeDelta::num_seconds` applied to a nanosecond count:
whole seconds, truncated toward zero. -/
def numSeconds (ns : Int) : Int := Int.tdiv ns nsPerSec

/-- Embeds `Session::start(mode)`; `now` stands for the `Utc::now()` call. -/
def Session.start (mode : FocusMode) (now : Int) : Session where
  id := none
  mode := mode
  started_at := now
  ended_at := none
  duration_seconds := none
  check_in_count := 0

/-- Embeds `Session::end`; `now` stands for the `Utc::now()` call, and the
stored duration is `now.signed_duration_since(started_at).num_seconds()`. -/
def Session.finish (s : Session) (now : Int) : Session :=
  { s with ended_at := some now
           duration_seconds := some (numSeconds (now - s.started_at)) }

/-- Embeds `Session::increment_check_in`. -/
def Session.increment_check_in (s : Session) : Session :=
  { s with check_in_count := s.check_in_count + 1 }

/-- Embeds `Session::is_active`. -/
def Session.is_active (s : Session) : Bool := s.ended_at.isNone

/-- The spec invariant `end_instant.is_some() ⇔ duration.is_some()`. -/
def Session.endDurationInv (s : Session) : Prop :=
  s.ended_at.isSome ↔ s.duration_seconds.isSome

/-- C8: `Session::start` establishes `ended_at = none` and
`duration_seconds = none`; `Session::end` sets both, with the duration equal
to the whole seconds of `end − start`; `increment_check_in` changes neither
field.  Consequently every constructor/mutator maintains
`end_instant.is_some() ⇔ duration.is_some()`. -/
theorem c8_session_end_duration_invariant
    (mode : FocusMode) (now start_now : Int) (s : Session)
    (hinv : s.endDurationInv) :
    ((Session.start mode start_now).ended_at = none ∧
     (Session.start mode start_now).duration_seconds = none ∧
     (Session.start mode start_now).endDurationInv) ∧
    ((s.finish now).ended_at = some now ∧
     (s.finish now).duration_seconds = some (numSeconds (now - s.started_at)) ∧
     (s.finish now).endDurationInv) ∧
    (s.increment_check_in.ended_at = s.ended_at ∧
     s.increment_check_in.duration_seconds = s.duration_seconds ∧
     s.increment_check_in.endDurationInv) := by
  refine ⟨⟨rfl, rfl, ?_⟩, ⟨rfl, rfl, ?_⟩, rfl, rfl, ?_⟩
  · simp [Session.start, Session.endDurationInv]
  · simp [Session.finish, Session.endDurationInv]
  · simpa [Session.increment_check_in, Session.endDurationInv] using hinv

/-- Witness for C8 at a concrete session: a session started at instant 5
(nanoseconds), finished at instant 2500000000, stores 2 whole seconds. -/
theorem c8_session_end_duration_invariant_witness :
    ((Session.start FocusMode.Review 5).ended_at = none ∧
     (Session.start FocusMode.Review 5).duration_seconds = none ∧
     (Session.start FocusMode.Review 5).endDurationInv) ∧
    (((Session.start FocusMode.Review 5).finish 2500000005).ended_at = some 2500000005 ∧
     ((Session.start FocusMode.Review 5).finish 2500000005).duration_seconds =
        some (numSeconds (2500000005 - (Session.start FocusMode.Review 5).started_at)) ∧
     ((Session.start FocusMode.Review 5).finish 2500000005).endDurationInv) ∧
    ((Session.start FocusMode.Review 5).increment_check_in.ended_at =
        (Session.start FocusMode.Review 5).ended_at ∧
     (Session.start FocusMode.Review 5).increment_check_in.duration_seconds =
        (Session.start FocusMode.Review 5).duration_seconds ∧
     (Session.start FocusMode.Review 5).increment_check_in.endDurationInv) :=
  c8_session_end_duration_invariant FocusMode.Review 2500000005 5
    (Session.start FocusMode.Review 5)
    (by simp [Session.start, Session.endDurationInv])

/-! ### Distraction configuration (crates/flux-core/src/config.rs) -/

/-- Embeds Rust `str::contains` (substring test). -/
def strContains (haystack pattern : String) : Bool :=
  decide (List.IsInfix pattern.toList haystack.toList)

/-- Embeds `struct DistractionConfig` (only the fields the App Tracker
reads; sets are modelled as lists). -/
structure DistractionConfig where
  apps : List String
  alert_enabled : Bool
  alert_after_seconds : Nat
  friction_apps : List String
  friction_delay_seconds : Nat
  whitelist_apps : List String
deriving Repr

/-- Embeds `DistractionConfig::is_distraction`: case-insensitive substring
match against the configured distraction apps. -/
def DistractionConfig.is_distraction (c : DistractionConfig) (application_name : String) : Bool :=
  c.apps.any fun app => strContains application_name.toLower app

/-- Embeds `DistractionConfig::is_friction`. -/
def DistractionConfig.is_friction (c : DistractionConfig) (application_name : String) : Bool :=
  c.friction_apps.any fun app => strContains application_name.toLower app

/-- Embeds `DistractionConfig::is_whitelisted`. -/
def DistractionConfig.is_whitelisted (c : DistractionConfig) (application_name : String) : Bool :=
  c.whitelist_apps.any fun app => strContains application_name.toLower app

/-! ### App Tracker (crates/flux-daemon/src/actors/app_tracker.rs)

`HashMap<String, _>` is modelled as an association list; `entry(k).or_insert(0) += v`
becomes `bumpBy`.  The pending `oneshot::Receiver<FrictionResponse>` is
modelled by its presence (`Bool`). -/

/-- Tick period: `POLLING_INTERVAL_SECONDS`. -/
def POLLING_INTERVAL_SECONDS : Nat := 5

/-- `SHORT_BURST_THRESHOLD_SECONDS` (app_tracker.rs line 72). -/
def SHORT_BURST_THRESHOLD_SECONDS : Nat := 15

/-- Association-list model of `map.entry(k).or_insert(0) += v`. -/
def bumpBy (m : List (String × Int)) (k : String) (v : Int) : List (String × Int) :=
  match m with
  | [] => [(k, v)]
  | (k₀, v₀) :: rest => if k₀ = k then (k₀, v₀ + v) :: rest else (k₀, v₀) :: bumpBy rest k v

/-- Association-list lookup with default `0` (`map.get(k).copied().unwrap_or(0)`). -/
def lookupZero (m : List (String × Int)) (k : String) : Int :=
  match m with
  | [] => 0
  | (k₀, v₀) :: rest => if k₀ = k then v₀ else lookupZero rest k

/-- Embeds `struct TrackerState`; `friction_response_pending` records whether
a one-shot receiver is stored.  Counters that are `u64`/`u32` in the source
are `Nat`, and the map values (`i64` seconds / `u32` burst counts) are `Int`
(they only ever grow by small increments, far below the word size). -/
structure TrackerState where
  session_id : Int
  paused : Bool
  accumulated : List (String × Int)
  current_distraction : Option String
  distraction_consecutive_seconds : Nat
  distraction_alert_sent : Bool
  last_app : Option String
  app_consecutive_seconds : Nat
  short_burst_count : List (String × Int)
  context_switch_count : Nat
  current_friction_app : Option String
  friction_consecutive_seconds : Nat
  friction_reminder_count : Nat
  friction_response_pending : Bool
deriving DecidableEq, Repr

/-- Embeds `AppTrackerActor::track_context_switch` (lines 260–301). -/
def trackContextSwitch (cfg : DistractionConfig) (st : TrackerState)
    (application_name : String) : TrackerState :=
  let is_same_app :=
    match st.last_app with
    | some last => last == application_name
    | none => false
  if is_same_app then
    { st with app_consecutive_seconds :=
        st.app_consecutive_seconds + POLLING_INTERVAL_SECONDS }
  else
    let st₁ :=
      match st.last_app with
      | some previous_app =>
        let both_whitelisted :=
          cfg.is_whitelisted previous_app && cfg.is_whitelisted application_name
        if !both_whitelisted then
          let st' := { st with context_switch_count := st.context_switch_count + 1 }
          if st.app_consecutive_seconds > 0 ∧
             st.app_consecutive_seconds < SHORT_BURST_THRESHOLD_SECONDS then
            { st' with short_burst_count := bumpBy st'.short_burst_count previous_app 1 }
          else st'
        else st
      | none => st
    { st₁ with last_app := some application_name
               app_consecutive_seconds := POLLING_INTERVAL_SECONDS }

/-- Embeds the `AppTrackerMessage::Paused` arm of
`AppTrackerActor::handle_message` (lines 208–221): flush the accumulator,
then clear the accumulator and the per-app distraction/last-seen counters
while setting the paused flag.  The returned list holds the `(name, seconds)`
pairs flushed to the `AppTrackingRepository` (entries with `seconds > 0`,
as in `flush_to_repository`). -/
def handlePausedMessage (st : TrackerState) : TrackerState × List (String × Int) :=
  let flushed := st.accumulated.filter fun p => p.2 > 0
  ({ st with paused := true
             accumulated := []
             current_distraction := none
             distraction_consecutive_seconds := 0
             distraction_alert_sent := false
             last_app := none
             app_consecutive_seconds := 0 }, flushed)

/-- Bumping a key in the association-list model adds to exactly that key's
looked-up value. -/
theorem lookupZero_bumpBy (m : List (String × Int)) (k : String) (v : Int) :
    lookupZero (bumpBy m k v) k = lookupZero m k + v := by
  induction m with
  | nil => simp [bumpBy, lookupZero]
  | cons hd tl ih =>
    by_cases h : hd.1 = k
    · simp [bumpBy, lookupZero, h]
    · simp [bumpBy, lookupZero, h, ih]

/-- C3: on a tick sample, if the sampled application equals the last-seen
app its consecutive counter grows by 5 seconds and nothing else changes;
on an app change with a previous app, the context-switch counter increments
unless both apps are whitelisted, the previous app's short-burst count
increments when additionally its consecutive seconds lay strictly between
0 and 15, and the last-seen app becomes the new app with counter 5; the
very first sample (no previous app) only installs the new last-seen app
with counter 5. -/
theorem c3_track_context_switch_cases (cfg : DistractionConfig)
    (st : TrackerState) (app prev : String) :
    (st.last_app = some app →
      trackContextSwitch cfg st app =
        { st with app_consecutive_seconds :=
            st.app_consecutive_seconds + POLLING_INTERVAL_SECONDS }) ∧
    (st.last_app = some prev → prev ≠ app →
      (trackContextSwitch cfg st app).context_switch_count =
        (if cfg.is_whitelisted prev && cfg.is_whitelisted app then
           st.context_switch_count
         else st.context_switch_count + 1) ∧
      lookupZero (trackContextSwitch cfg st app).short_burst_count prev =
        (if (cfg.is_whitelisted prev && cfg.is_whitelisted app) = false ∧
            0 < st.app_consecutive_seconds ∧
            st.app_consecutive_seconds < SHORT_BURST_THRESHOLD_SECONDS then
           lookupZero st.short_burst_count prev + 1
         else lookupZero st.short_burst_count prev) ∧
      (trackContextSwitch cfg st app).last_app = some app ∧
      (trackContextSwitch cfg st app).app_consecutive_seconds =
        POLLING_INTERVAL_SECONDS) ∧
    (st.last_app = none →
      trackContextSwitch cfg st app =
        { st with last_app := some app
                  app_consecutive_seconds := POLLING_INTERVAL_SECONDS }) := by
  refine ⟨?_, ?_, ?_⟩
  · intro h
    simp [trackContextSwitch, h]
  · intro h hne
    have hbeq : (prev == app) = false := by
      simp [hne]
    by_cases hw : (cfg.is_whitelisted prev && cfg.is_whitelisted app) = true
    · simp [trackContextSwitch, h, hbeq, hw]
    · have hw' : (cfg.is_whitelisted prev && cfg.is_whitelisted app) = false := by
        simpa using hw
      by_cases hs : 0 < st.app_consecutive_seconds ∧
          st.app_consecutive_seconds < SHORT_BURST_THRESHOLD_SECONDS
      · simp [trackContextSwitch, h, hbeq, hw', hs, lookupZero_bumpBy]
      · simp [trackContextSwitch, h, hbeq, hw', hs]
  · intro h
    simp [trackContextSwitch, h]

/-- Witness for C3 at concrete inputs: with previous app `"discord"` held for
10 seconds (a short burst) and no whitelist, switching to `"cursor"`
increments the context-switch counter and discord's short-burst count, and
resets the last-seen counter to 5. -/
theorem c3_track_context_switch_cases_witness :
    (trackContextSwitch ⟨[], false, 30, [], 10, []⟩
        ⟨1, false, [], none, 0, false, some "discord", 10, [], 0, none, 0, 0, false⟩
        "cursor").context_switch_count = 1 ∧
    lookupZero (trackContextSwitch ⟨[], false, 30, [], 10, []⟩
        ⟨1, false, [], none, 0, false, some "discord", 10, [], 0, none, 0, 0, false⟩
        "cursor").short_burst_count "discord" = 1 ∧
    (trackContextSwitch ⟨[], false, 30, [], 10, []⟩
        ⟨1, false, [], none, 0, false, some "discord", 10, [], 0, none, 0, 0, false⟩
        "cursor").last_app = some "cursor" ∧
    (trackContextSwitch ⟨[], false, 30, [], 10, []⟩
        ⟨1, false, [], none, 0, false, some "discord", 10, [], 0, none, 0, 0, false⟩
        "cursor").app_consecutive_seconds = POLLING_INTERVAL_SECONDS := by
  have h := (c3_track_context_switch_cases ⟨[], false, 30, [], 10, []⟩
      ⟨1, false, [], none, 0, false, some "discord", 10, [], 0, none, 0, 0, false⟩
      "cursor" "discord").2.1 rfl (by decide)
  refine ⟨?_, ?_, h.2.2.1, h.2.2.2⟩
  · have hc := h.1
    simp only [DistractionConfig.is_whitelisted] at hc
    simp at hc
    exact hc
  · have hc := h.2.1
    simp only [DistractionConfig.is_whitelisted] at hc
    simp [lookupZero] at hc
    exact hc

/-- C6 counterexample: a paused message does NOT clear the friction
detector.  At this concrete tracker state (friction app `"steam"` with 10
consecutive seconds, 2 reminders and a pending response receiver), the
state after `Paused` still holds the full friction detector state, contrary
to the claim that it is cleared. -/
theorem c6_paused_counterexample :
    (handlePausedMessage
        ⟨1, false, [("discord", 25)], none, 0, false, some "discord", 25,
         [], 3, some "steam", 10, 2, true⟩).1.current_friction_app = some "steam" ∧
    (handlePausedMessage
        ⟨1, false, [("discord", 25)], none, 0, false, some "discord", 25,
         [], 3, some "steam", 10, 2, true⟩).1.friction_consecutive_seconds = 10 ∧
    (handlePausedMessage
        ⟨1, false, [("discord", 25)], none, 0, false, some "discord", 25,
         [], 3, some "steam", 10, 2, true⟩).1.friction_reminder_count = 2 ∧
    (handlePausedMessage
        ⟨1, false, [("discord", 25)], none, 0, false, some "discord", 25,
         [], 3, some "steam", 10, 2, true⟩).1.friction_response_pending = true := by
  decide

/-- C6 (amended): handling `Paused` flushes the positive accumulator entries
to the repository, clears the accumulator, the distraction detector state
and the last-seen app with its counter, and sets the paused flag; the
session-level metrics (short-burst counts, context-switch count) AND the
entire friction detector state (current friction app, friction consecutive
seconds, reminder count, pending response receiver) are retained. -/
theorem c6_paused_flush_and_clear (st : TrackerState) :
    (handlePausedMessage st).2 = st.accumulated.filter (fun p => p.2 > 0) ∧
    (handlePausedMessage st).1.paused = true ∧
    (handlePausedMessage st).1.accumulated = [] ∧
    (handlePausedMessage st).1.current_distraction = none ∧
    (handlePausedMessage st).1.distraction_consecutive_seconds = 0 ∧
    (handlePausedMessage st).1.distraction_alert_sent = false ∧
    (handlePausedMessage st).1.last_app = none ∧
    (handlePausedMessage st).1.app_consecutive_seconds = 0 ∧
    (handlePausedMessage st).1.short_burst_count = st.short_burst_count ∧
    (handlePausedMessage st).1.context_switch_count = st.context_switch_count ∧
    (handlePausedMessage st).1.current_friction_app = st.current_friction_app ∧
    (handlePausedMessage st).1.friction_consecutive_seconds =
      st.friction_consecutive_seconds ∧
    (handlePausedMessage st).1.friction_reminder_count = st.friction_reminder_count ∧
    (handlePausedMessage st).1.friction_response_pending =
      st.friction_response_pending ∧
    (handlePausedMessage st).1.session_id = st.session_id := by
  refine ⟨rfl, rfl, rfl, rfl, rfl, rfl, rfl, rfl, rfl, rfl, rfl, rfl, rfl, rfl, rfl⟩

/-! ### Timer (crates/flux-daemon/src/actors/timer.rs)

`std::time::Duration` values are natural nanoseconds.  The `Instant`
arithmetic `last_tick.elapsed()` is modelled by passing the elapsed
nanoseconds into the tick handler.  Repository call results
(`save`/`update`) and the outcome of polling the pending check-in one-shot
are inputs.  Every effect (repository call, notifier send, tray push,
app-tracker message) is recorded as a `TimerEvent` in source order. -/

/-- Nanoseconds per second as a natural number (`Duration::as_secs`). -/
def natNsPerSec : Nat := 1000000000

/-- `Duration::as_secs` on a nanosecond count. -/
def nsToSecs (n : Nat) : Nat := n / natNsPerSec

/-- `CHECK_IN_THRESHOLDS: [u8; 3] = [25, 50, 75]`, as a position lookup
(out-of-range positions never arise). -/
def thresholdAt : Nat → Nat
  | 0 => 25
  | 1 => 50
  | 2 => 75
  | _ => 0

/-- Embeds `struct TimerState`; `check_ins_done: [bool; 3]` is a triple. -/
structure TimerState where
  mode : FocusMode
  total_duration : Nat
  remaining : Nat
  paused : Bool
  check_ins_done : Bool × Bool × Bool
deriving DecidableEq, Repr

/-- `check_ins_done[j]` (true for out-of-range positions, which never arise). -/
def doneAt (st : TimerState) : Nat → Bool
  | 0 => st.check_ins_done.1
  | 1 => st.check_ins_done.2.1
  | 2 => st.check_ins_done.2.2
  | _ => true

/-- Embeds `struct TimerStatus`; `remaining` is in nanoseconds. -/
structure TimerStatus where
  active : Bool
  remaining : Nat
  mode : Option FocusMode
  paused : Bool
deriving DecidableEq, Repr

/-- Outcome of `oneshot::Receiver::try_recv` on the pending check-in
(`CheckInResponse` plus the two error cases). -/
inductive PollOutcome where
  | focused : PollOutcome
  | notFocused : PollOutcome
  | empty : PollOutcome
  | closed : PollOutcome
deriving DecidableEq, Repr

/-- The observable effects the Timer actor performs, in source order. -/
inductive TimerEvent where
  | repoSave (id : Int) : TimerEvent
  | repoSaveFailed : TimerEvent
  | repoUpdate : TimerEvent
  | repoUpdateFailed : TimerEvent
  | alertPersistenceError : TimerEvent
  | trayActive (remaining : Nat) (mode : FocusMode) : TimerEvent
  | trayPaused (remaining : Nat) : TimerEvent
  | trayRemaining (remaining : Nat) (mode : FocusMode) : TimerEvent
  | trayInactive : TimerEvent
  | trayCheckInPending : TimerEvent
  | notifySessionStart (minutes : Nat) : TimerEvent
  | notifySessionEnd (minutes : Nat) : TimerEvent
  | notifySessionPaused : TimerEvent
  | notifySessionResumed : TimerEvent
  | notifyCheckIn (percent : Nat) : TimerEvent
  | trackerStarted (id : Int) : TimerEvent
  | trackerEnded : TimerEvent
  | trackerPaused : TimerEvent
  | trackerResumed : TimerEvent
deriving DecidableEq, Repr

/-- Embeds `struct TimerActor`; the optional handles
(`notifier`, `app_tracker`, `tray_state`, `session_repository`) are
presence flags, and `pending_check_in: Option<oneshot::Receiver<_>>` is
modelled by its presence. -/
structure TimerActor where
  state : Option TimerState
  has_notifier : Bool
  has_app_tracker : Bool
  has_tray : Bool
  has_repository : Bool
  current_session : Option Session
  pending_check_in : Bool
deriving DecidableEq, Repr

/-- Embeds `TimerActor::total_minutes`. -/
def totalMinutes (state : Option TimerState) : Nat :=
  match state with
  | some st => nsToSecs st.total_duration / 60
  | none => 0

/-- Embeds `TimerActor::elapsed_percent`:
`((total - remaining) / total × 100).min(100)` truncated to an integer
percent (`as u8`). -/
def elapsedPercent (st : TimerState) : Nat :=
  min 100 (100 * (st.total_duration - st.remaining) / st.total_duration)

/-- Embeds `TimerActor::next_check_in_threshold`: the first
`(index, threshold)` of `CHECK_IN_THRESHOLDS` (in order `25, 50, 75`)
whose check-in is not yet done and whose threshold is at most the current
elapsed percent. -/
def nextCheckInThreshold (st : TimerState) : Option (Nat × Nat) :=
  let p := elapsedPercent st
  if st.check_ins_done.1 = false ∧ 25 ≤ p then some (0, 25)
  else if st.check_ins_done.2.1 = false ∧ 50 ≤ p then some (1, 50)
  else if st.check_ins_done.2.2 = false ∧ 75 ≤ p then some (2, 75)
  else none

/-- Embeds `TimerActor::mark_check_in_done`. -/
def markCheckInDone (st : TimerState) (index : Nat) : TimerState :=
  match index with
  | 0 => { st with check_ins_done :=
      (true, st.check_ins_done.2.1, st.check_ins_done.2.2) }
  | 1 => { st with check_ins_done :=
      (st.check_ins_done.1, true, st.check_ins_done.2.2) }
  | 2 => { st with check_ins_done :=
      (st.check_ins_done.1, st.check_ins_done.2.1, true) }
  | _ => st

/-- Embeds `TimerActor::notify_persistence_error` (an alert is sent only
when a notifier handle exists). -/
def notifyPersistenceError (a : TimerActor) : List TimerEvent :=
  if a.has_notifier then [.alertPersistenceError] else []

/-- Embeds `TimerActor::persist_new_session`; `saveResult` is the outcome
of `repository.save` (`some id` on success, assigning the session id). -/
def persistNewSession (a : TimerActor) (mode : FocusMode) (now : Int)
    (saveResult : Option Int) : TimerActor × List TimerEvent :=
  if a.has_repository then
    match saveResult with
    | some id =>
      ({ a with current_session := some { Session.start mode now with id := some id } },
       [.repoSave id])
    | none => (a, [.repoSaveFailed] ++ notifyPersistenceError a)
  else (a, [])

/-- Embeds `TimerActor::persist_session_end`; `updateOk` is the outcome of
`repository.update`.  `current_session` is dropped in every case. -/
def persistSessionEnd (a : TimerActor) (now : Int) (updateOk : Bool) :
    TimerActor × List TimerEvent :=
  match a.current_session with
  | some session =>
    if a.has_repository then
      let _ended := session.finish now
      if updateOk then
        ({ a with current_session := none }, [.repoUpdate])
      else
        ({ a with current_session := none },
         [.repoUpdateFailed] ++ notifyPersistenceError a)
    else ({ a with current_session := none }, [])
  | none => ({ a with current_session := none }, [])

/-- Embeds `TimerActor::persist_check_in`: increments the session's
check-in count and updates the repository row. -/
def persistCheckIn (a : TimerActor) (updateOk : Bool) :
    TimerActor × List TimerEvent :=
  match a.current_session with
  | some session =>
    if a.has_repository then
      let session' := session.increment_check_in
      if updateOk then
        ({ a with current_session := some session' }, [.repoUpdate])
      else
        ({ a with current_session := some session' },
         [.repoUpdateFailed] ++ notifyPersistenceError a)
    else (a, [])
  | none => (a, [])

/-- Embeds `TimerActor::pause_session_internal` (pause triggered by a
`NotFocused` check-in reply). -/
def pauseSessionInternal (a : TimerActor) : TimerActor × List TimerEvent :=
  match a.state with
  | some st =>
    if st.paused = false then
      ({ a with state := some { st with paused := true } },
       (if a.has_app_tracker then [TimerEvent.trackerPaused] else []) ++
       (if a.has_tray then [TimerEvent.trayPaused st.remaining] else []) ++
       (if a.has_notifier then [TimerEvent.notifySessionPaused] else []))
    else (a, [])
  | none => (a, [])

/-- Embeds `TimerActor::check_pending_check_in_response`: polls the pending
one-shot (when present); `NotFocused` clears it and pauses, `Focused` and a
closed channel clear it, an empty channel leaves it pending. -/
def checkPendingCheckInResponse (a : TimerActor) (poll : PollOutcome) :
    TimerActor × List TimerEvent :=
  if a.pending_check_in then
    match poll with
    | .notFocused => pauseSessionInternal { a with pending_check_in := false }
    | .focused => ({ a with pending_check_in := false }, [])
    | .empty => (a, [])
    | .closed => ({ a with pending_check_in := false }, [])
  else (a, [])

/-- Embeds the check-in dispatch block of the tick arm (timer.rs lines
466–479): when no reply is outstanding and a threshold is due, mark it
done, persist the incremented check-in count, push `CheckInPending` to the
tray, send `CheckIn(percent)` and store the returned one-shot as pending. -/
def dispatchCheckIn (a : TimerActor) (updateOk : Bool) :
    TimerActor × List TimerEvent :=
  if a.pending_check_in = false then
    match a.state with
    | some st =>
      match nextCheckInThreshold st with
      | some (index, threshold) =>
        let a₁ := { a with state := some (markCheckInDone st index) }
        let persisted := persistCheckIn a₁ updateOk
        let a₂ := persisted.1
        let a₃ := if a₂.has_notifier then { a₂ with pending_check_in := true } else a₂
        (a₃, persisted.2 ++
             (if a₂.has_tray then [TimerEvent.trayCheckInPending] else []) ++
             (if a₂.has_notifier then [TimerEvent.notifyCheckIn threshold] else []))
      | none => (a, [])
    | none => (a, [])
  else (a, [])

/-- Embeds the session-completion path of the tick arm (identical
bookkeeping to `Stop`): tell the tracker `Ended`, persist the session end,
set the tray inactive, send the session-end notification, drop the state. -/
def completeSession (a : TimerActor) (now : Int) (updateOk : Bool) :
    TimerActor × List TimerEvent :=
  let total := totalMinutes a.state
  let persisted := persistSessionEnd a now updateOk
  ({ persisted.1 with state := none },
   (if a.has_app_tracker then [TimerEvent.trackerEnded] else []) ++
   persisted.2 ++
   (if a.has_tray then [TimerEvent.trayInactive] else []) ++
   (if a.has_notifier then [TimerEvent.notifySessionEnd total] else []))

/-- Embeds the periodic-tick arm of `TimerActor::run` (timer.rs lines
423–482).  `elapsed` is `last_tick.elapsed()` in nanoseconds; while paused
(or with no session) the tick is a no-op.  When `remaining > elapsed` the
countdown decrements and the tray, pending check-in poll and check-in
dispatch run; otherwise the session completes. -/
def timerTick (a : TimerActor) (elapsed : Nat) (poll : PollOutcome)
    (updateOk : Bool) (now : Int) : TimerActor × List TimerEvent :=
  match a.state with
  | none => (a, [])
  | some st =>
    if st.paused then (a, [])
    else if elapsed < st.remaining then
      let st' := { st with remaining := st.remaining - elapsed }
      let a₁ := { a with state := some st' }
      let polled := checkPendingCheckInResponse a₁ poll
      let dispatched := dispatchCheckIn polled.1 updateOk
      (dispatched.1,
       (if a.has_tray then [TimerEvent.trayRemaining st'.remaining st'.mode] else []) ++
       polled.2 ++ dispatched.2)
    else completeSession a now updateOk

/-- Embeds the `TimerMessage::Start` arm of `TimerActor::run` (timer.rs
lines 333–357): unconditionally installs a fresh `TimerState`, persists a
new `Session`, pushes the active tray state, notifies `SessionStart`, and
(when the persisted session has an id) sends `SessionStarted` to the App
Tracker. -/
def handleStart (a : TimerActor) (duration : Nat) (mode : FocusMode)
    (now : Int) (saveResult : Option Int) : TimerActor × List TimerEvent :=
  let duration_minutes := nsToSecs duration / 60
  let fresh : TimerState :=
    { mode := mode
      total_duration := duration
      remaining := duration
      paused := false
      check_ins_done := (false, false, false) }
  let a₁ := { a with state := some fresh }
  let persisted := persistNewSession a₁ mode now saveResult
  let a₂ := persisted.1
  (a₂, persisted.2 ++
       (if a₂.has_tray then [TimerEvent.trayActive duration mode] else []) ++
       (if a₂.has_notifier then [TimerEvent.notifySessionStart duration_minutes] else []) ++
       (match a₂.has_app_tracker, a₂.current_session with
        | true, some session =>
          match session.id with
          | some session_id => [TimerEvent.trackerStarted session_id]
          | none => []
        | _, _ => []))

/-- Embeds `TimerActor::current_status` (timer.rs lines 490–505). -/
def currentStatus (state : Option TimerState) : TimerStatus :=
  match state with
  | some st => { active := true, remaining := st.remaining,
                 mode := some st.mode, paused := st.paused }
  | none => { active := false, remaining := 0, mode := none, paused := false }

/-- Marking a check-in done never touches the countdown. -/
theorem markCheckInDone_remaining (st : TimerState) (i : Nat) :
    (markCheckInDone st i).remaining = st.remaining := by
  rcases i with _ | _ | _ | n <;> rfl

/-- `persist_check_in` only touches `current_session`, never the timer state. -/
theorem persistCheckIn_state (a : TimerActor) (u : Bool) :
    (persistCheckIn a u).1.state = a.state := by
  unfold persistCheckIn
  cases h : a.current_session with
  | none => rfl
  | some s =>
    by_cases hr : a.has_repository = true
    · by_cases hu : u = true
      · simp [hr, hu]
      · simp [hr, hu]
    · simp [hr]

/-- Pausing from a check-in reply preserves the countdown value. -/
theorem pauseSessionInternal_remaining (a : TimerActor) :
    ((pauseSessionInternal a).1.state).map TimerState.remaining =
      a.state.map TimerState.remaining := by
  unfold pauseSessionInternal
  cases h : a.state with
  | none => simp [h]
  | some st =>
    by_cases hp : st.paused = false
    · simp [hp, h]
    · simp [hp, h]

/-- Polling the pending check-in reply preserves the countdown value. -/
theorem checkPendingCheckInResponse_remaining (a : TimerActor) (poll : PollOutcome) :
    ((checkPendingCheckInResponse a poll).1.state).map TimerState.remaining =
      a.state.map TimerState.remaining := by
  unfold checkPendingCheckInResponse
  by_cases hp : a.pending_check_in = true
  · cases poll <;> simp [hp, pauseSessionInternal_remaining]
  · simp [hp]

/-- Dispatching a check-in preserves the countdown value. -/
theorem dispatchCheckIn_remaining (a : TimerActor) (u : Bool) :
    ((dispatchCheckIn a u).1.state).map TimerState.remaining =
      a.state.map TimerState.remaining := by
  unfold dispatchCheckIn
  by_cases hp : a.pending_check_in = false
  · cases h : a.state with
    | none => simp [hp, h]
    | some st =>
      cases hfind : nextCheckInThreshold st with
      | none => simp [hp, h, hfind]
      | some it =>
        obtain ⟨i, t⟩ := it
        simp only [hp, if_true, h, hfind, decide_True]
        split <;> simp [persistCheckIn_state, markCheckInDone_remaining, h]
  · simp [hp]

/-- C7: on a timer tick of an active session, a paused session is left
completely untouched (in particular `remaining` is invariant), and an
unpaused session either completes (when `remaining ≤ elapsed`) or has its
`remaining` strictly decreased. -/
theorem c7_tick_remaining_decreases (a : TimerActor) (st : TimerState)
    (elapsed : Nat) (poll : PollOutcome) (updateOk : Bool) (now : Int)
    (h : a.state = some st) :
    (st.paused = true → timerTick a elapsed poll updateOk now = (a, [])) ∧
    (st.paused = false → 0 < elapsed →
      (st.remaining ≤ elapsed ∧
        (timerTick a elapsed poll updateOk now).1.state = none) ∨
      (∃ st', (timerTick a elapsed poll updateOk now).1.state = some st' ∧
        st'.remaining < st.remaining)) := by
  constructor
  · intro hp
    unfold timerTick
    rw [h]
    simp [hp]
  · intro hp he
    by_cases hr : elapsed < st.remaining
    · right
      have hmap : ((timerTick a elapsed poll updateOk now).1.state).map
          TimerState.remaining = some (st.remaining - elapsed) := by
        unfold timerTick
        rw [h]
        simp only [hp, Bool.false_eq_true, if_false, hr, if_true]
        rw [dispatchCheckIn_remaining, checkPendingCheckInResponse_remaining]
        rfl
      rcases Option.map_eq_some'.mp hmap with ⟨st', hst, hrem⟩
      exact ⟨st', hst, by omega⟩
    · left
      refine ⟨by omega, ?_⟩
      unfold timerTick
      rw [h]
      simp [hp, hr, completeSession]

/-- Witness for C7: a concrete active session (total 60 s, remaining 30 s)
with the paused flag set is untouched by a 1 s tick, and the same session
unpaused has its remaining strictly decreased below 30 s. -/
theorem c7_tick_remaining_decreases_witness :
    (timerTick
        ⟨some ⟨FocusMode.AiAssisted, 60000000000, 30000000000, true, (false, false, false)⟩,
         true, true, true, true, none, false⟩ 1000000000 .empty true 0 =
      (⟨some ⟨FocusMode.AiAssisted, 60000000000, 30000000000, true, (false, false, false)⟩,
        true, true, true, true, none, false⟩, [])) ∧
    (∃ st', (timerTick
        ⟨some ⟨FocusMode.AiAssisted, 60000000000, 30000000000, false, (false, false, false)⟩,
         true, true, true, true, none, false⟩ 1000000000 .empty true 0).1.state =
          some st' ∧ st'.remaining < 30000000000) := by
  constructor
  · exact (c7_tick_remaining_decreases
      ⟨some ⟨FocusMode.AiAssisted, 60000000000, 30000000000, true, (false, false, false)⟩,
       true, true, true, true, none, false⟩
      ⟨FocusMode.AiAssisted, 60000000000, 30000000000, true, (false, false, false)⟩
      1000000000 .empty true 0 rfl).1 rfl
  · rcases (c7_tick_remaining_decreases
      ⟨some ⟨FocusMode.AiAssisted, 60000000000, 30000000000, false, (false, false, false)⟩,
       true, true, true, true, none, false⟩
      ⟨FocusMode.AiAssisted, 60000000000, 30000000000, false, (false, false, false)⟩
      1000000000 .empty true 0 rfl).2 rfl (by omega) with hc | hc
    · exact absurd hc.1 (by decide)
    · exact hc

/-- `next_check_in_threshold` finds the first due threshold: whenever some
position is undone with its threshold at most the elapsed percent, the
returned pair is the least such position (hence the lowest such threshold,
as `CHECK_IN_THRESHOLDS` is ascending). -/
theorem nextCheckInThreshold_least (st : TimerState)
    (hex : ∃ j, j < 3 ∧ doneAt st j = false ∧ thresholdAt j ≤ elapsedPercent st) :
    ∃ i t, nextCheckInThreshold st = some (i, t) ∧ i < 3 ∧ thresholdAt i = t ∧
      doneAt st i = false ∧ t ≤ elapsedPercent st ∧
      ∀ j, j < i → ¬(doneAt st j = false ∧ thresholdAt j ≤ elapsedPercent st) := by
  by_cases c0 : st.check_ins_done.1 = false ∧ 25 ≤ elapsedPercent st
  · refine ⟨0, 25, by simp [nextCheckInThreshold, c0], by omega, rfl, c0.1, c0.2, ?_⟩
    intro j hj
    omega
  · by_cases c1 : st.check_ins_done.2.1 = false ∧ 50 ≤ elapsedPercent st
    · refine ⟨1, 50, by simp [nextCheckInThreshold, c0, c1], by omega, rfl, c1.1, c1.2, ?_⟩
      intro j hj
      interval_cases j
      simpa [doneAt, thresholdAt] using c0
    · by_cases c2 : st.check_ins_done.2.2 = false ∧ 75 ≤ elapsedPercent st
      · refine ⟨2, 75, by simp [nextCheckInThreshold, c0, c1, c2], by omega, rfl, c2.1,
          c2.2, ?_⟩
        intro j hj
        interval_cases j
        · simpa [doneAt, thresholdAt] using c0
        · simpa [doneAt, thresholdAt] using c1
      · exfalso
        obtain ⟨j, hj, hd, ht⟩ := hex
        interval_cases j
        · exact c0 ⟨by simpa [doneAt] using hd, by simpa [thresholdAt] using ht⟩
        · exact c1 ⟨by simpa [doneAt] using hd, by simpa [thresholdAt] using ht⟩
        · exact c2 ⟨by simpa [doneAt] using hd, by simpa [thresholdAt] using ht⟩

/-- C2: on a tick of an active, unpaused, incomplete session with no
check-in reply outstanding, whenever some threshold of `[25, 50, 75]` is
undone with value at most the elapsed percent (computed on the state after
the countdown decrement, as `(total − remaining)/total × 100`), exactly the
lowest such threshold is dispatched: it is marked done, the session's
check-in count is incremented and persisted (the `repoUpdate` event), the
tray shows `CheckInPending`, the `CheckIn(percent)` notification is sent
strictly after the persistence event, and the returned one-shot becomes
the new pending receiver. -/
theorem c2_check_in_dispatch (a : TimerActor) (st : TimerState) (sess : Session)
    (elapsed : Nat) (poll : PollOutcome) (now : Int)
    (h : a.state = some st) (hp : st.paused = false)
    (hpend : a.pending_check_in = false)
    (hr : elapsed < st.remaining)
    (hnot : a.has_notifier = true) (htray : a.has_tray = true)
    (hrepo : a.has_repository = true) (hsess : a.current_session = some sess)
    (hex : ∃ j, j < 3 ∧
      doneAt { st with remaining := st.remaining - elapsed } j = false ∧
      thresholdAt j ≤ elapsedPercent { st with remaining := st.remaining - elapsed }) :
    ∃ i t,
      nextCheckInThreshold { st with remaining := st.remaining - elapsed } =
        some (i, t) ∧
      thresholdAt i = t ∧
      doneAt { st with remaining := st.remaining - elapsed } i = false ∧
      t ≤ elapsedPercent { st with remaining := st.remaining - elapsed } ∧
      (∀ j, j < i →
        ¬(doneAt { st with remaining := st.remaining - elapsed } j = false ∧
          thresholdAt j ≤ elapsedPercent { st with remaining := st.remaining - elapsed })) ∧
      timerTick a elapsed poll true now =
        ({ a with
            state := some (markCheckInDone
              { st with remaining := st.remaining - elapsed } i),
            current_session := some sess.increment_check_in,
            pending_check_in := true },
         [TimerEvent.trayRemaining (st.remaining - elapsed) st.mode,
          TimerEvent.repoUpdate, TimerEvent.trayCheckInPending,
          TimerEvent.notifyCheckIn t]) ∧
      (∃ ip iN, ip < iN ∧
        (timerTick a elapsed poll true now).2.get? ip = some TimerEvent.repoUpdate ∧
        (timerTick a elapsed poll true now).2.get? iN =
          some (TimerEvent.notifyCheckIn t)) := by
  obtain ⟨i, t, hfind, hi3, hth, hdone, hle, hmin⟩ :=
    nextCheckInThreshold_least { st with remaining := st.remaining - elapsed } hex
  have htick : timerTick a elapsed poll true now =
      ({ a with
          state := some (markCheckInDone
            { st with remaining := st.remaining - elapsed } i),
          current_session := some sess.increment_check_in,
          pending_check_in := true },
       [TimerEvent.trayRemaining (st.remaining - elapsed) st.mode,
        TimerEvent.repoUpdate, TimerEvent.trayCheckInPending,
        TimerEvent.notifyCheckIn t]) := by
    have hfind' : nextCheckInThreshold
        { mode := st.mode, total_duration := st.total_duration,
          remaining := st.remaining - elapsed, paused := false,
          check_ins_done := st.check_ins_done } = some (i, t) := by
      rw [← hp]
      exact hfind
    unfold timerTick
    rw [h]
    simp only [hp, Bool.false_eq_true, if_false, hr, if_true]
    unfold checkPendingCheckInResponse
    simp only [hpend, Bool.false_eq_true, if_false]
    unfold dispatchCheckIn
    simp only [hpend, hfind', htray, hnot]
    unfold persistCheckIn
    simp only [hsess, hrepo]
    simp [htray, hnot, hp]
  refine ⟨i, t, hfind, hth, hdone, hle, hmin, htick, 1, 3, by omega, ?_, ?_⟩
  · rw [htick]
    rfl
  · rw [htick]
    rfl

/-- Witness for C2: a session of total 100 s with 70 s remaining after the
decrement (elapsed percent 30) and no check-in done yet dispatches exactly
the 25% check-in, persisting the incremented count before notifying. -/
theorem c2_check_in_dispatch_witness :
    ∃ i t,
      nextCheckInThreshold
        { mode := FocusMode.Review, total_duration := 100000000000,
          remaining := 80000000000 - 10000000000, paused := false,
          check_ins_done := (false, false, false) } = some (i, t) ∧
      thresholdAt i = t ∧
      doneAt
        { mode := FocusMode.Review, total_duration := 100000000000,
          remaining := 80000000000 - 10000000000, paused := false,
          check_ins_done := (false, false, false) } i = false ∧
      t ≤ elapsedPercent
        { mode := FocusMode.Review, total_duration := 100000000000,
          remaining := 80000000000 - 10000000000, paused := false,
          check_ins_done := (false, false, false) } ∧
      (∀ j, j < i →
        ¬(doneAt
            { mode := FocusMode.Review, total_duration := 100000000000,
              remaining := 80000000000 - 10000000000, paused := false,
              check_ins_done := (false, false, false) } j = false ∧
          thresholdAt j ≤ elapsedPercent
            { mode := FocusMode.Review, total_duration := 100000000000,
              remaining := 80000000000 - 10000000000, paused := false,
              check_ins_done := (false, false, false) })) ∧
      timerTick
        ⟨some ⟨FocusMode.Review, 100000000000, 80000000000, false, (false, false, false)⟩,
         true, true, true, true, some ⟨some 1, FocusMode.Review, 0, none, none, 0⟩, false⟩
        10000000000 .empty true 0 =
        ({ (⟨some ⟨FocusMode.Review, 100000000000, 80000000000, false, (false, false, false)⟩,
            true, true, true, true, some ⟨some 1, FocusMode.Review, 0, none, none, 0⟩,
            false⟩ : TimerActor) with
            state := some (markCheckInDone
              { mode := FocusMode.Review, total_duration := 100000000000,
                remaining := 80000000000 - 10000000000, paused := false,
                check_ins_done := (false, false, false) } i),
            current_session := some
              (Session.increment_check_in ⟨some 1, FocusMode.Review, 0, none, none, 0⟩),
            pending_check_in := true },
         [TimerEvent.trayRemaining (80000000000 - 10000000000) FocusMode.Review,
          TimerEvent.repoUpdate, TimerEvent.trayCheckInPending,
          TimerEvent.notifyCheckIn t]) ∧
      (∃ ip iN, ip < iN ∧
        (timerTick
          ⟨some ⟨FocusMode.Review, 100000000000, 80000000000, false, (false, false, false)⟩,
           true, true, true, true, some ⟨some 1, FocusMode.Review, 0, none, none, 0⟩, false⟩
          10000000000 .empty true 0).2.get? ip = some TimerEvent.repoUpdate ∧
        (timerTick
          ⟨some ⟨FocusMode.Review, 100000000000, 80000000000, false, (false, false, false)⟩,
           true, true, true, true, some ⟨some 1, FocusMode.Review, 0, none, none, 0⟩, false⟩
          10000000000 .empty true 0).2.get? iN =
          some (TimerEvent.notifyCheckIn t)) :=
  c2_check_in_dispatch
    ⟨some ⟨FocusMode.Review, 100000000000, 80000000000, false, (false, false, false)⟩,
     true, true, true, true, some ⟨some 1, FocusMode.Review, 0, none, none, 0⟩, false⟩
    ⟨FocusMode.Review, 100000000000, 80000000000, false, (false, false, false)⟩
    ⟨some 1, FocusMode.Review, 0, none, none, 0⟩
    10000000000 .empty 0 rfl rfl rfl (by decide) rfl rfl rfl rfl
    ⟨0, by decide, by decide, by decide⟩

/-- C1 counterexample: `Start` does NOT fail silently while a session is
active.  At this concrete actor — active session (mode `Review`, 30 s of 60 s
remaining, one check-in done, persisted session id 3) — processing
`Start(25 min, AiAssisted)` replaces the `TimerState`, replaces the current
session with a freshly persisted one (id 7), and emits the `repoSave`,
`SessionStart` and `SessionStarted` effects the claim says are absent. -/
theorem c1_start_counterexample :
    (handleStart
        ⟨some ⟨FocusMode.Review, 60000000000, 30000000000, false, (true, false, false)⟩,
         true, true, true, true, some ⟨some 3, FocusMode.Review, 0, none, none, 1⟩, false⟩
        1500000000000 FocusMode.AiAssisted 100 (some 7)).1.state ≠
      some ⟨FocusMode.Review, 60000000000, 30000000000, false, (true, false, false)⟩ ∧
    (handleStart
        ⟨some ⟨FocusMode.Review, 60000000000, 30000000000, false, (true, false, false)⟩,
         true, true, true, true, some ⟨some 3, FocusMode.Review, 0, none, none, 1⟩, false⟩
        1500000000000 FocusMode.AiAssisted 100 (some 7)).1.current_session ≠
      some ⟨some 3, FocusMode.Review, 0, none, none, 1⟩ ∧
    TimerEvent.repoSave 7 ∈ (handleStart
        ⟨some ⟨FocusMode.Review, 60000000000, 30000000000, false, (true, false, false)⟩,
         true, true, true, true, some ⟨some 3, FocusMode.Review, 0, none, none, 1⟩, false⟩
        1500000000000 FocusMode.AiAssisted 100 (some 7)).2 ∧
    TimerEvent.notifySessionStart 25 ∈ (handleStart
        ⟨some ⟨FocusMode.Review, 60000000000, 30000000000, false, (true, false, false)⟩,
         true, true, true, true, some ⟨some 3, FocusMode.Review, 0, none, none, 1⟩, false⟩
        1500000000000 FocusMode.AiAssisted 100 (some 7)).2 ∧
    TimerEvent.trackerStarted 7 ∈ (handleStart
        ⟨some ⟨FocusMode.Review, 60000000000, 30000000000, false, (true, false, false)⟩,
         true, true, true, true, some ⟨some 3, FocusMode.Review, 0, none, none, 1⟩, false⟩
        1500000000000 FocusMode.AiAssisted 100 (some 7)).2 := by
  refine ⟨by decide, by decide, by decide, by decide, by decide⟩

/-- C1 (amended): processing `Start(duration, mode)` while a session is
already active does not fail: it overwrites the `TimerState` with a freshly
initialized one, persists a brand-new `Session` (receiving a fresh id from
the repository), pushes the active tray state, emits `SessionStart` and
`SessionStarted(new id)` — and never persists an end for the previously
active session (no `repoUpdate` effect), leaving it active in the
repository. -/
theorem c1_start_replaces_active_session (a : TimerActor) (st : TimerState)
    (sess : Session) (duration : Nat) (mode : FocusMode) (now : Int) (id : Int)
    (_h : a.state = some st) (_hsess : a.current_session = some sess)
    (hrepo : a.has_repository = true) (hnot : a.has_notifier = true)
    (htray : a.has_tray = true) (htracker : a.has_app_tracker = true) :
    handleStart a duration mode now (some id) =
      ({ a with
          state := some ⟨mode, duration, duration, false, (false, false, false)⟩,
          current_session := some { Session.start mode now with id := some id } },
       [TimerEvent.repoSave id, TimerEvent.trayActive duration mode,
        TimerEvent.notifySessionStart (nsToSecs duration / 60),
        TimerEvent.trackerStarted id]) ∧
    TimerEvent.repoUpdate ∉ (handleStart a duration mode now (some id)).2 := by
  constructor
  · unfold handleStart persistNewSession
    simp [hrepo, hnot, htray, htracker, Session.start]
  · unfold handleStart persistNewSession
    simp [hrepo, hnot, htray, htracker, Session.start]

/-- Witness for C1 (amended) at a concrete active actor: `Start` of a 10 min
`Architecture` session while a `Veille` session is active yields the fresh
state, the fresh persisted session (id 9), and the start effects. -/
theorem c1_start_replaces_active_session_witness :
    handleStart
        ⟨some ⟨FocusMode.Veille, 60000000000, 10000000000, true, (false, true, false)⟩,
         true, true, true, true, some ⟨some 4, FocusMode.Veille, 2, none, none, 0⟩, true⟩
        600000000000 FocusMode.Architecture 50 (some 9) =
      ({ (⟨some ⟨FocusMode.Veille, 60000000000, 10000000000, true, (false, true, false)⟩,
          true, true, true, true, some ⟨some 4, FocusMode.Veille, 2, none, none, 0⟩,
          true⟩ : TimerActor) with
          state := some ⟨FocusMode.Architecture, 600000000000, 600000000000, false,
            (false, false, false)⟩,
          current_session := some
            { Session.start FocusMode.Architecture 50 with id := some 9 } },
       [TimerEvent.repoSave 9, TimerEvent.trayActive 600000000000 FocusMode.Architecture,
        TimerEvent.notifySessionStart (nsToSecs 600000000000 / 60),
        TimerEvent.trackerStarted 9]) ∧
    TimerEvent.repoUpdate ∉ (handleStart
        ⟨some ⟨FocusMode.Veille, 60000000000, 10000000000, true, (false, true, false)⟩,
         true, true, true, true, some ⟨some 4, FocusMode.Veille, 2, none, none, 0⟩, true⟩
        600000000000 FocusMode.Architecture 50 (some 9)).2 :=
  c1_start_replaces_active_session
    ⟨some ⟨FocusMode.Veille, 60000000000, 10000000000, true, (false, true, false)⟩,
     true, true, true, true, some ⟨some 4, FocusMode.Veille, 2, none, none, 0⟩, true⟩
    ⟨FocusMode.Veille, 60000000000, 10000000000, true, (false, true, false)⟩
    ⟨some 4, FocusMode.Veille, 2, none, none, 0⟩
    600000000000 FocusMode.Architecture 50 9 rfl rfl rfl rfl rfl rfl

/-! ### IPC server (crates/flux-daemon/src/server.rs) and protocol
(crates/flux-protocol/src/lib.rs)

`handle_request` dispatches a decoded `Request` on the Timer handle and
builds the `Response`.  Timer-handle calls and any broadcast-shutdown
trigger are modelled as `ServerEffect`s; `timerAccepts` is whether the
handle's `send` succeeds, `statusReply` is the Timer's `get_status` reply.

The source's `StartSession` arm reads
`mode.unwrap_or(FocusMode::Prompting)` — but `FocusMode` (flux-core) has no
`Prompting` variant — and passes a third check-in argument to
`TimerHandle::start`, whose signature takes only `(duration, mode)`.  The
nonexistent default is therefore kept as the explicit parameter
`promptingDefault`, and the extra argument appears as the third field of
`TimerCall.start`. -/

/-- Embeds `enum Request` (flux-protocol lines 11–30): exactly the six
variants `StartSession`, `StopSession`, `PauseSession`, `ResumeSession`,
`GetStatus`, `Ping` — there is no `Shutdown` variant.  Durations are `u64`
minutes. -/
inductive Request where
  | StartSession (duration : Option Nat) (mode : Option FocusMode) : Request
  | StopSession : Request
  | PauseSession : Request
  | ResumeSession : Request
  | GetStatus : Request
  | Ping : Request
deriving DecidableEq, Repr

/-- Embeds `enum Response` (flux-protocol lines 33–52). -/
inductive Response where
  | SessionStatus (active : Bool) (remaining_seconds : Nat)
      (mode : Option FocusMode) (paused : Bool) : Response
  | Ok : Response
  | Error (message : String) : Response
  | Pong : Response
deriving DecidableEq, Repr

/-- `DEFAULT_DURATION_MINUTES` (server.rs line 13). -/
def DEFAULT_DURATION_MINUTES : Nat := 25

/-- `DEFAULT_CHECK_IN_MINUTES` (server.rs line 14). -/
def DEFAULT_CHECK_IN_MINUTES : Nat := 25

/-- A call made on the `TimerHandle`; `start` carries the two Duration
arguments in seconds (`Duration::from_secs`) plus the mode, mirroring the
three-argument call in the `StartSession` arm. -/
inductive TimerCall where
  | start (durationSecs : Nat) (mode : FocusMode) (checkInSecs : Nat) : TimerCall
  | stop : TimerCall
  | pause : TimerCall
  | resume : TimerCall
  | getStatus : TimerCall
deriving DecidableEq, Repr

/-- An effect of dispatching a request: a Timer-handle call, or a trigger
of the broadcast shutdown channel. -/
inductive ServerEffect where
  | callTimer (c : TimerCall) : ServerEffect
  | broadcastShutdown : ServerEffect
deriving DecidableEq, Repr

/-- Embeds `handle_request` (server.rs lines 122–192). -/
def handleRequest (promptingDefault : FocusMode) (timerAccepts : Bool)
    (statusReply : Option TimerStatus) : Request → Response × List ServerEffect
  | .Ping => (.Pong, [])
  | .GetStatus =>
    match statusReply with
    | some status =>
      (.SessionStatus status.active (nsToSecs status.remaining) status.mode status.paused,
       [.callTimer .getStatus])
    | none => (.Error "impossible de récupérer le statut", [.callTimer .getStatus])
  | .StartSession duration mode =>
    let duration_minutes := duration.getD DEFAULT_DURATION_MINUTES
    let focus_mode := mode.getD promptingDefault
    ((if timerAccepts then .Ok else .Error "impossible de démarrer la session"),
     [.callTimer (.start (duration_minutes * 60) focus_mode (DEFAULT_CHECK_IN_MINUTES * 60))])
  | .StopSession =>
    ((if timerAccepts then .Ok else .Error "impossible d\x27arrêter la session"),
     [.callTimer .stop])
  | .PauseSession =>
    ((if timerAccepts then .Ok else .Error "impossible de mettre en pause"),
     [.callTimer .pause])
  | .ResumeSession =>
    ((if timerAccepts then .Ok else .Error "impossible de reprendre la session"),
     [.callTimer .resume])

/-- C4: no value of the protocol's request type dispatches to a broadcast
shutdown — `Request` has no `Shutdown` variant and no arm of
`handle_request` touches the shutdown channel (the server does not even
hold a shutdown sender), contradicting the claim that a `Shutdown` request
exists and triggers the broadcast shutdown. -/
theorem c4_no_request_triggers_shutdown (promptingDefault : FocusMode)
    (timerAccepts : Bool) (statusReply : Option TimerStatus) (r : Request) :
    ServerEffect.broadcastShutdown ∉
      (handleRequest promptingDefault timerAccepts statusReply r).2 := by
  cases r <;> simp [handleRequest]
  cases statusReply <;> simp

/-- C5: evaluating the `StartSession` arm at the failing input
`StartSession{duration: None, mode: None}`: the duration defaults to
25 minutes (forwarded as 1500 s), but the mode defaults to the free
parameter standing in for the nonexistent `FocusMode::Prompting`, and a
third check-in argument (1500 s) is forwarded to a two-argument
`TimerHandle::start` — the code does not compile, and as written does not
default the mode to `AiAssisted`. -/
theorem c5_start_session_defaults (promptingDefault : FocusMode)
    (timerAccepts : Bool) (statusReply : Option TimerStatus) :
    handleRequest promptingDefault timerAccepts statusReply
        (.StartSession none none) =
      ((if timerAccepts then Response.Ok
        else Response.Error "impossible de démarrer la session"),
       [ServerEffect.callTimer
          (TimerCall.start (DEFAULT_DURATION_MINUTES * 60) promptingDefault
            (DEFAULT_CHECK_IN_MINUTES * 60))]) := rfl

/-- C10: with no active session, `current_status` returns exactly
`{active: false, remaining: 0, mode: None, paused: false}`, and the IPC
`GetStatus` arm forwards it unchanged as `SessionStatus` with
`remaining_seconds = 0`. -/
theorem c10_get_status_no_session (promptingDefault : FocusMode)
    (timerAccepts : Bool) :
    currentStatus none =
      { active := false, remaining := 0, mode := none, paused := false } ∧
    handleRequest promptingDefault timerAccepts (some (currentStatus none))
        .GetStatus =
      (Response.SessionStatus false 0 none false,
       [ServerEffect.callTimer TimerCall.getStatus]) :=
  ⟨rfl, rfl⟩

/-! ### The bincode wire format (legacy `bincode::serialize` configuration:
little-endian, fixed-width integers)

Bytes are naturals below 256.  An enum value is a `u32` little-endian
variant index followed by the variant's fields; `bool` is one byte 0/1;
`Option` is one tag byte 0/1 followed by the payload; `u64` is 8 bytes
little-endian; a string is its `u64` UTF-8 byte length followed by its
UTF-8 bytes. -/

/-- Write a `u32` little-endian (4 bytes). -/
def writeU32LE (n : Nat) : List Nat :=
  [n % 256, n / 256 % 256, n / 65536 % 256, n / 16777216 % 256]

/-- Read a `u32` little-endian. -/
def readU32LE : List Nat → Option (Nat × List Nat)
  | b0 :: b1 :: b2 :: b3 :: rest =>
    some (b0 + 256 * b1 + 65536 * b2 + 16777216 * b3, rest)
  | _ => none

/-- Write a `u64` little-endian (8 bytes). -/
def writeU64LE (n : Nat) : List Nat :=
  [n % 256, n / 256 % 256, n / 65536 % 256, n / 16777216 % 256,
   n / 4294967296 % 256, n / 1099511627776 % 256,
   n / 281474976710656 % 256, n / 72057594037927936 % 256]

/-- Read a `u64` little-endian. -/
def readU64LE : List Nat → Option (Nat × List Nat)
  | b0 :: b1 :: b2 :: b3 :: b4 :: b5 :: b6 :: b7 :: rest =>
    some (b0 + 256 * b1 + 65536 * b2 + 16777216 * b3 + 4294967296 * b4 +
          1099511627776 * b5 + 281474976710656 * b6 + 72057594037927936 * b7,
      rest)
  | _ => none

/-- Write a `bool` (one byte, 1 or 0). -/
def writeBool (b : Bool) : List Nat := [if b then 1 else 0]

/-- Read a `bool`. -/
def readBool : List Nat → Option (Bool × List Nat)
  | 0 :: rest => some (false, rest)
  | 1 :: rest => some (true, rest)
  | _ => none

/-- Write an `Option` (tag byte 0 = `None`, 1 = `Some` then the payload). -/
def writeOpt {α : Type} (enc : α → List Nat) : Option α → List Nat
  | none => [0]
  | some x => 1 :: enc x

/-- Read an `Option`. -/
def readOpt {α : Type} (dec : List Nat → Option (α × List Nat)) :
    List Nat → Option (Option α × List Nat)
  | 0 :: rest => some (none, rest)
  | 1 :: rest => (dec rest).map fun p => (some p.1, p.2)
  | _ => none

/-- UTF-8 encoding of one unicode scalar value. -/
def utf8EncodeCp (c : Nat) : List Nat :=
  if c < 128 then [c]
  else if c < 2048 then [192 + c / 64, 128 + c % 64]
  else if c < 65536 then [224 + c / 4096, 128 + c / 64 % 64, 128 + c % 64]
  else [240 + c / 262144, 128 + c / 4096 % 64, 128 + c / 64 % 64, 128 + c % 64]

/-- UTF-8 decoding of one code point from the head of a byte list. -/
def utf8DecodeCp : List Nat → Option (Nat × List Nat)
  | [] => none
  | b :: rest =>
    if b < 128 then some (b, rest)
    else if b < 192 then none
    else if b < 224 then
      match rest with
      | b1 :: rest1 =>
        if 128 ≤ b1 ∧ b1 < 192 then
          some ((b - 192) * 64 + (b1 - 128), rest1)
        else none
      | [] => none
    else if b < 240 then
      match rest with
      | b1 :: b2 :: rest2 =>
        if (128 ≤ b1 ∧ b1 < 192) ∧ (128 ≤ b2 ∧ b2 < 192) then
          some ((b - 224) * 4096 + (b1 - 128) * 64 + (b2 - 128), rest2)
        else none
      | _ => none
    else if b < 248 then
      match rest with
      | b1 :: b2 :: b3 :: rest3 =>
        if (128 ≤ b1 ∧ b1 < 192) ∧ (128 ≤ b2 ∧ b2 < 192) ∧ (128 ≤ b3 ∧ b3 < 192) then
          some ((b - 240) * 262144 + (b1 - 128) * 4096 + (b2 - 128) * 64 +
            (b3 - 128), rest3)
        else none
      | _ => none
    else none

/-- Reading back 4 little-endian bytes recovers any `u32` value. -/
theorem readU32LE_writeU32LE (n : Nat) (rest : List Nat) (h : n < 4294967296) :
    readU32LE (writeU32LE n ++ rest) = some (n, rest) := by
  simp only [writeU32LE, List.cons_append, List.nil_append, readU32LE,
    Option.some.injEq, Prod.mk.injEq]
  exact ⟨by omega, trivial⟩

/-- Reading back 8 little-endian bytes recovers any `u64` value. -/
theorem readU64LE_writeU64LE (n : Nat) (rest : List Nat)
    (h : n < 18446744073709551616) :
    readU64LE (writeU64LE n ++ rest) = some (n, rest) := by
  simp only [writeU64LE, List.cons_append, List.nil_append, readU64LE,
    Option.some.injEq, Prod.mk.injEq]
  exact ⟨by omega, trivial⟩

/-- Reading back one byte recovers any `bool`. -/
theorem readBool_writeBool (b : Bool) (rest : List Nat) :
    readBool (writeBool b ++ rest) = some (b, rest) := by
  cases b <;> rfl

/-- UTF-8 decoding inverts UTF-8 encoding on every in-range code point. -/
theorem utf8DecodeCp_encodeCp (c : Nat) (rest : List Nat) (h : c < 1114112) :
    utf8DecodeCp (utf8EncodeCp c ++ rest) = some (c, rest) := by
  unfold utf8EncodeCp
  split_ifs with h1 h2 h3
  · simp only [List.cons_append, List.nil_append, utf8DecodeCp]
    rw [if_pos h1]
  · simp only [List.cons_append, List.nil_append, utf8DecodeCp]
    rw [if_neg (by omega), if_neg (by omega), if_pos (by omega),
      if_pos (by omega)]
    simp only [Option.some.injEq, Prod.mk.injEq]
    exact ⟨by omega, trivial⟩
  · simp only [List.cons_append, List.nil_append, utf8DecodeCp]
    rw [if_neg (by omega), if_neg (by omega), if_neg (by omega),
      if_pos (by omega), if_pos (by omega)]
    simp only [Option.some.injEq, Prod.mk.injEq]
    exact ⟨by omega, trivial⟩
  · simp only [List.cons_append, List.nil_append, utf8DecodeCp]
    rw [if_neg (by omega), if_neg (by omega), if_neg (by omega),
      if_neg (by omega), if_pos (by omega), if_pos (by omega)]
    simp only [Option.some.injEq, Prod.mk.injEq]
    exact ⟨by omega, trivial⟩

/-- UTF-8 encoding of a character list (Rust `str` bytes). -/
def utf8Encode (cs : List Char) : List Nat :=
  cs.flatMap fun ch => utf8EncodeCp ch.toNat

/-- Decoding loop for a UTF-8 byte list; the fuel bounds the number of
characters (each consumes at least one byte). -/
def utf8DecodeLoop : Nat → List Nat → Option (List Char)
  | _, [] => some []
  | 0, _ :: _ => none
  | fuel + 1, b :: l =>
    match utf8DecodeCp (b :: l) with
    | some (c, rest) =>
      if Nat.isValidChar c then
        match utf8DecodeLoop fuel rest with
        | some cs => some (Char.ofNat c :: cs)
        | none => none
      else none
    | none => none

/-- Every UTF-8 code-point encoding is nonempty. -/
theorem utf8EncodeCp_ne_nil (c : Nat) : utf8EncodeCp c ≠ [] := by
  unfold utf8EncodeCp
  split_ifs <;> simp

/-- The decoding loop inverts `utf8Encode` given enough fuel. -/
theorem utf8DecodeLoop_encode (cs : List Char) (fuel : Nat)
    (hf : (utf8Encode cs).length ≤ fuel) :
    utf8DecodeLoop fuel (utf8Encode cs) = some cs := by
  induction cs generalizing fuel with
  | nil =>
    cases fuel <;> rfl
  | cons ch cs ih =>
    have hvalid : Nat.isValidChar ch.toNat := ch.valid
    have hlt : ch.toNat < 1114112 := by
      rcases hvalid with hv | ⟨hv1, hv2⟩
      · omega
      · omega
    have henc : utf8Encode (ch :: cs) =
        utf8EncodeCp ch.toNat ++ utf8Encode cs := by
      simp [utf8Encode]
    obtain ⟨b, bs, hE⟩ : ∃ b bs, utf8EncodeCp ch.toNat = b :: bs := by
      cases hE : utf8EncodeCp ch.toNat with
      | nil => exact absurd hE (utf8EncodeCp_ne_nil ch.toNat)
      | cons b bs => exact ⟨b, bs, rfl⟩
    have hlen1 : 1 ≤ (utf8Encode (ch :: cs)).length := by
      rw [henc, hE]
      simp
    obtain ⟨f, rfl⟩ : ∃ f, fuel = f + 1 := by
      cases fuel with
      | zero => omega
      | succ f => exact ⟨f, rfl⟩
    rw [henc, hE, List.cons_append]
    show utf8DecodeLoop (f + 1) (b :: (bs ++ utf8Encode cs)) = _
    unfold utf8DecodeLoop
    rw [← List.cons_append, ← hE, utf8DecodeCp_encodeCp ch.toNat _ hlt]
    simp only [if_pos hvalid]
    have hfcs : (utf8Encode cs).length ≤ f := by
      rw [henc, hE] at hf
      simp at hf
      omega
    rw [ih f hfcs]
    simp [Char.ofNat_toNat]

/-- Serialize a string: `u64` byte length, then the UTF-8 bytes. -/
def encodeString (s : String) : List Nat :=
  writeU64LE (utf8Encode s.data).length ++ utf8Encode s.data

/-- Deserialize a string. -/
def decodeString (l : List Nat) : Option (String × List Nat) :=
  match readU64LE l with
  | some (n, rest) =>
    if n ≤ rest.length then
      match utf8DecodeLoop n (rest.take n) with
      | some cs => some (String.mk cs, rest.drop n)
      | none => none
    else none
  | none => none

/-- A string whose UTF-8 byte length fits a `u64` (always true for real
Rust strings). -/
def strWF (s : String) : Prop :=
  (utf8Encode s.data).length < 18446744073709551616

/-- String decoding inverts string encoding. -/
theorem decodeString_encodeString (s : String) (rest : List Nat)
    (h : strWF s) :
    decodeString (encodeString s ++ rest) = some (s, rest) := by
  unfold encodeString decodeString
  rw [List.append_assoc, readU64LE_writeU64LE _ _ h]
  have hle : (utf8Encode s.data).length ≤
      (utf8Encode s.data ++ rest).length := by
    simp
  simp only [if_pos hle, List.take_left, List.drop_left]
  have hfuel : (utf8Encode s.data).length ≤ (utf8Encode s.data).length := le_rfl
  rw [utf8DecodeLoop_encode s.data _ hfuel]

/-- Serialize `FocusMode` (derived `Serialize`): `u32` variant index in
declaration order (`AiAssisted` = 0 — the slot the removed legacy
`Prompting` variant occupied), then the `Custom` payload string. -/
def encodeMode : FocusMode → List Nat
  | .AiAssisted => writeU32LE 0
  | .Review => writeU32LE 1
  | .Architecture => writeU32LE 2
  | .Veille => writeU32LE 3
  | .Custom s => writeU32LE 4 ++ encodeString s

/-- Deserialize `FocusMode`. -/
def decodeMode (l : List Nat) : Option (FocusMode × List Nat) :=
  match readU32LE l with
  | some (0, rest) => some (.AiAssisted, rest)
  | some (1, rest) => some (.Review, rest)
  | some (2, rest) => some (.Architecture, rest)
  | some (3, rest) => some (.Veille, rest)
  | some (4, rest) =>
    match decodeString rest with
    | some (s, rest1) => some (.Custom s, rest1)
    | none => none
  | _ => none

/-- Well-formedness of a mode value for the wire (the `Custom` payload's
byte length fits a `u64`). -/
def FocusMode.wf : FocusMode → Prop
  | .Custom s => strWF s
  | _ => True

/-- Mode decoding inverts mode encoding. -/
theorem decodeMode_encodeMode (m : FocusMode) (rest : List Nat) (h : m.wf) :
    decodeMode (encodeMode m ++ rest) = some (m, rest) := by
  cases m with
  | AiAssisted =>
    unfold encodeMode decodeMode
    rw [readU32LE_writeU32LE 0 rest (by omega)]
  | Review =>
    unfold encodeMode decodeMode
    rw [readU32LE_writeU32LE 1 rest (by omega)]
  | Architecture =>
    unfold encodeMode decodeMode
    rw [readU32LE_writeU32LE 2 rest (by omega)]
  | Veille =>
    unfold encodeMode decodeMode
    rw [readU32LE_writeU32LE 3 rest (by omega)]
  | Custom s =>
    unfold encodeMode decodeMode
    rw [List.append_assoc, readU32LE_writeU32LE 4 _ (by omega)]
    simp only []
    rw [decodeString_encodeString s rest h]

/-- Serialize `Request` (derived, variant indices in declaration order:
`StartSession` = 0 … `Ping` = 5). -/
def encodeRequest : Request → List Nat
  | .StartSession duration mode =>
    writeU32LE 0 ++ writeOpt writeU64LE duration ++ writeOpt encodeMode mode
  | .StopSession => writeU32LE 1
  | .PauseSession => writeU32LE 2
  | .ResumeSession => writeU32LE 3
  | .GetStatus => writeU32LE 4
  | .Ping => writeU32LE 5

/-- Deserialize `Request`. -/
def decodeRequest (l : List Nat) : Option (Request × List Nat) :=
  match readU32LE l with
  | some (0, rest) =>
    match readOpt readU64LE rest with
    | some (duration, rest1) =>
      match readOpt decodeMode rest1 with
      | some (mode, rest2) => some (.StartSession duration mode, rest2)
      | none => none
    | none => none
  | some (1, rest) => some (.StopSession, rest)
  | some (2, rest) => some (.PauseSession, rest)
  | some (3, rest) => some (.ResumeSession, rest)
  | some (4, rest) => some (.GetStatus, rest)
  | some (5, rest) => some (.Ping, rest)
  | _ => none

/-- Well-formedness of a request for the wire: the `u64` duration fits,
and the mode payload is well-formed. -/
def Request.wf : Request → Prop
  | .StartSession duration mode =>
    (match duration with
     | some n => n < 18446744073709551616
     | none => True) ∧
    (match mode with
     | some m => m.wf
     | none => True)
  | _ => True

/-- Serialize `Response` (variant indices: `SessionStatus` = 0, `Ok` = 1,
`Error` = 2, `Pong` = 3). -/
def encodeResponse : Response → List Nat
  | .SessionStatus active remaining_seconds mode paused =>
    writeU32LE 0 ++ writeBool active ++ writeU64LE remaining_seconds ++
      writeOpt encodeMode mode ++ writeBool paused
  | .Ok => writeU32LE 1
  | .Error message => writeU32LE 2 ++ encodeString message
  | .Pong => writeU32LE 3

/-- Deserialize `Response`. -/
def decodeResponse (l : List Nat) : Option (Response × List Nat) :=
  match readU32LE l with
  | some (0, rest) =>
    match readBool rest with
    | some (active, rest1) =>
      match readU64LE rest1 with
      | some (remaining_seconds, rest2) =>
        match readOpt decodeMode rest2 with
        | some (mode, rest3) =>
          match readBool rest3 with
          | some (paused, rest4) =>
            some (.SessionStatus active remaining_seconds mode paused, rest4)
          | none => none
        | none => none
      | none => none
    | none => none
  | some (1, rest) => some (.Ok, rest)
  | some (2, rest) =>
    match decodeString rest with
    | some (message, rest1) => some (.Error message, rest1)
    | none => none
  | some (3, rest) => some (.Pong, rest)
  | _ => none

/-- Well-formedness of a response for the wire. -/
def Response.wf : Response → Prop
  | .SessionStatus _ remaining_seconds mode _ =>
    remaining_seconds < 18446744073709551616 ∧
    (match mode with
     | some m => m.wf
     | none => True)
  | .Error message => strWF message
  | _ => True

/-- Decoding an optional mode inverts encoding it. -/
theorem readOpt_encodeMode (m : Option FocusMode) (rest : List Nat)
    (h : match m with | some mo => mo.wf | none => True) :
    readOpt decodeMode (writeOpt encodeMode m ++ rest) = some (m, rest) := by
  cases m with
  | none => rfl
  | some mo =>
    show readOpt decodeMode (1 :: (encodeMode mo ++ rest)) = _
    simp [readOpt, decodeMode_encodeMode mo rest h]

/-- Request decoding inverts request encoding. -/
theorem decodeRequest_encodeRequest (r : Request) (rest : List Nat)
    (h : r.wf) :
    decodeRequest (encodeRequest r ++ rest) = some (r, rest) := by
  cases r with
  | StartSession duration mode =>
    obtain ⟨hd, hm⟩ := h
    unfold encodeRequest decodeRequest
    rw [List.append_assoc, List.append_assoc, readU32LE_writeU32LE 0 _ (by omega)]
    simp only []
    have hdur : readOpt readU64LE
        (writeOpt writeU64LE duration ++ (writeOpt encodeMode mode ++ rest)) =
        some (duration, writeOpt encodeMode mode ++ rest) := by
      cases duration with
      | none => rfl
      | some n =>
        show readOpt readU64LE (1 :: (writeU64LE n ++ _)) = _
        simp [readOpt, readU64LE_writeU64LE n _ (by simpa using hd)]
    rw [hdur]
    simp only []
    rw [readOpt_encodeMode mode rest hm]
  | StopSession =>
    unfold encodeRequest decodeRequest
    rw [readU32LE_writeU32LE 1 rest (by omega)]
  | PauseSession =>
    unfold encodeRequest decodeRequest
    rw [readU32LE_writeU32LE 2 rest (by omega)]
  | ResumeSession =>
    unfold encodeRequest decodeRequest
    rw [readU32LE_writeU32LE 3 rest (by omega)]
  | GetStatus =>
    unfold encodeRequest decodeRequest
    rw [readU32LE_writeU32LE 4 rest (by omega)]
  | Ping =>
    unfold encodeRequest decodeRequest
    rw [readU32LE_writeU32LE 5 rest (by omega)]

/-- Response decoding inverts response encoding. -/
theorem decodeResponse_encodeResponse (resp : Response) (rest : List Nat)
    (h : resp.wf) :
    decodeResponse (encodeResponse resp ++ rest) = some (resp, rest) := by
  cases resp with
  | SessionStatus active remaining_seconds mode paused =>
    obtain ⟨hr, hm⟩ := h
    unfold encodeResponse decodeResponse
    rw [List.append_assoc, List.append_assoc, List.append_assoc,
      List.append_assoc, readU32LE_writeU32LE 0 _ (by omega)]
    simp only []
    rw [readBool_writeBool active]
    simp only []
    rw [readU64LE_writeU64LE remaining_seconds _ (by simpa using hr)]
    simp only []
    rw [readOpt_encodeMode mode _ hm]
    simp only []
    rw [readBool_writeBool paused]
  | Ok =>
    unfold encodeResponse decodeResponse
    rw [readU32LE_writeU32LE 1 rest (by omega)]
  | Error message =>
    unfold encodeResponse decodeResponse
    rw [List.append_assoc, readU32LE_writeU32LE 2 _ (by omega)]
    simp only []
    rw [decodeString_encodeString message rest h]
  | Pong =>
    unfold encodeResponse decodeResponse
    rw [readU32LE_writeU32LE 3 rest (by omega)]

/-- The mode text the repository writes for a session
(`session.mode.as_str()` in `SqliteSessionRepository::save`). -/
def storedModeValue (s : Session) : String := s.mode.as_str

/-- C9: every well-formed `Request` / `Response` round-trips through the
wire codec; the legacy stored name `"prompting"` decodes to `AiAssisted`;
the legacy wire tag (variant index 0, previously `Prompting`) decodes to
`AiAssisted`; and a newly started `AiAssisted` session is stored with mode
text `"ai-assisted"`. -/
theorem c9_roundtrip_and_legacy_prompting :
    (∀ (r : Request) (rest : List Nat), r.wf →
      decodeRequest (encodeRequest r ++ rest) = some (r, rest)) ∧
    (∀ (resp : Response) (rest : List Nat), resp.wf →
      decodeResponse (encodeResponse resp ++ rest) = some (resp, rest)) ∧
    FocusMode.from_stored "prompting" = FocusMode.AiAssisted ∧
    (∀ rest : List Nat,
      decodeMode (writeU32LE 0 ++ rest) = some (FocusMode.AiAssisted, rest)) ∧
    (∀ now : Int,
      storedModeValue (Session.start FocusMode.AiAssisted now) = "ai-assisted") := by
  refine ⟨decodeRequest_encodeRequest, decodeResponse_encodeResponse, ?_, ?_, ?_⟩
  · rfl
  · intro rest
    unfold decodeMode
    rw [readU32LE_writeU32LE 0 rest (by omega)]
  · intro now
    rfl

/-- Witness for C9 at concrete values: a `StartSession{25, Custom
"deep-work"}` request and an `Error` response with an accented message
both round-trip byte-for-byte, with their well-formedness discharged by
evaluation. -/
theorem c9_roundtrip_and_legacy_prompting_witness :
    Request.wf (.StartSession (some 25) (some (.Custom "deep-work"))) ∧
    decodeRequest (encodeRequest
        (.StartSession (some 25) (some (.Custom "deep-work"))) ++ []) =
      some (.StartSession (some 25) (some (.Custom "deep-work")), []) ∧
    Response.wf (.Error "Session en cours") ∧
    decodeResponse (encodeResponse (.Error "Session en cours") ++ []) =
      some (.Error "Session en cours", []) := by
  have hwf1 : Request.wf (.StartSession (some 25) (some (.Custom "deep-work"))) := by
    constructor
    · decide
    · show strWF "deep-work"
      unfold strWF
      decide
  have hwf2 : Response.wf (.Error "Session en cours") := by
    show strWF "Session en cours"
    unfold strWF
    decide
  exact ⟨hwf1,
    c9_roundtrip_and_legacy_prompting.1 _ [] hwf1,
    hwf2,
    c9_roundtrip_and_legacy_prompting.2.1 _ [] hwf2⟩

end Flux
